import Mathlib

/-!
Shallow embedding of the Go backend of `kubernetes-autoscale-webapp`
(`backend/main.go`, `backend/handlers/*.go`, `backend/models/user.go`).

The embedding models:
  * the `users` table of the relational store (rows with SERIAL id,
    name, UNIQUE email, created_at assigned by the store);
  * the Redis cache as an association list of (key, serialized value,
    expiry) entries together with a per-call availability flag — a
    failed `GET` (key absent, expired, or server unreachable) is the
    `none` outcome, matching `err == nil` checks in the Go code;
  * the four HTTP handlers `getUsers`, `createUser`, `getUser` and the
    stress handler, as pure functions from an environment (cache/store
    availability, clock) and system state to an HTTP response, the
    successor state, and a count of store queries issued.

Serialization follows Go `encoding/json` for these structs: struct
fields in declaration order with their json tags, a `nil` slice
marshalled as `null`, and `json.NewEncoder(w).Encode` appending a
trailing newline that `json.Marshal` does not produce.
-/

namespace Webapp

/-- A row of the `users` table: SERIAL primary key `id`, `name`,
UNIQUE `email`, and `created_at` assigned by the store at insert time
(timestamps are abstracted to naturals). -/
structure Row where
  id : Nat
  name : String
  email : String
  createdAt : Nat
deriving DecidableEq

/-- Rendering of a `time.Time` value inside JSON; abstracts Go's
RFC3339 rendering by an injective rendering of the model timestamp. -/
def marshalTime (t : Nat) : String := toString t

/-- Go `json.Marshal` of one `User` struct: fields in struct order
with tags `id`, `name`, `email`, `created_at`. -/
def marshalUser (u : Row) : String :=
  "\x7b\"id\":" ++ toString u.id ++ ",\"name\":\"" ++ u.name ++
    "\",\"email\":\"" ++ u.email ++ "\",\"created_at\":\"" ++
    marshalTime u.createdAt ++ "\"\x7d"

/-- Go `json.Marshal` of the `[]User` slice built by `getUsers`.
The slice starts as `var users []User` (nil) and only grows by
`append`, so it is nil exactly when there are no rows — and Go
marshals a nil slice as `null`, not as `[]`. -/
def marshalUsers : List Row → String
  | [] => "null"
  | us => "[" ++ String.intercalate (",") (us.map marshalUser) ++ "]"

/-- One Redis entry: key, serialized payload, and absolute expiry
instant (`SET` with `5*time.Minute` stores `now + cacheTTL`). -/
structure CacheEntry where
  key : String
  value : String
  expiry : Nat
deriving DecidableEq

/-- The Redis keyspace. -/
abbrev Cache := List CacheEntry

/-- The `5 * time.Minute` TTL used by both cache writes, in seconds. -/
def cacheTTL : Nat := 300

/-- Redis `GET`: succeeds (the `err == nil` branch of the Go code)
exactly when the server is reachable and holds an unexpired entry for
the key; an absent key, an expired entry, and an unreachable server
are all the failing outcome `none`. -/
def redisGet (up : Bool) (c : Cache) (now : Nat) (k : String) : Option String :=
  if up then
    match c.find? (fun x => x.key == k) with
    | some x => if now < x.expiry then some x.value else none
    | none => none
  else none

/-- Redis `SET key value 5*time.Minute`: replaces any entry for the
key when the server is reachable; the Go code ignores the returned
error, so an unreachable server leaves the keyspace unchanged. -/
def redisSet (up : Bool) (c : Cache) (now : Nat) (k v : String) : Cache :=
  if up then ⟨k, v, now + cacheTTL⟩ :: c.filter (fun x => x.key != k) else c

/-- Redis `DEL key`: removes the entry when the server is reachable
(absence of the key is not an error); the Go code ignores the returned
error, so an unreachable server leaves the keyspace unchanged. -/
def redisDel (up : Bool) (c : Cache) (k : String) : Cache :=
  if up then c.filter (fun x => x.key != k) else c

/-- Shared out-of-process state: the store's `users` table in
insertion order, the SERIAL sequence, and the Redis keyspace. -/
structure Sys where
  users : List Row
  nextId : Nat
  cache : Cache
deriving DecidableEq

/-- Per-call environment: reachability of the cache and of the store
for the calls made during this request, and the clock (also the value
of `CURRENT_TIMESTAMP` the store assigns). -/
structure Env where
  cacheUp : Bool
  dbUp : Bool
  now : Nat
deriving DecidableEq

/-- Status code and body of an HTTP response; `http.Error` writes the
message followed by a newline, `Encoder.Encode` appends a newline,
and a cached payload is written back verbatim by `w.Write`. -/
structure HttpResponse where
  status : Nat
  body : String
deriving DecidableEq

/-- Outcome of one handler call: the response, the successor system
state, and how many store queries / cache commands were issued. -/
structure HResult where
  resp : HttpResponse
  sys : Sys
  storeCalls : Nat
  cacheCalls : Nat
deriving DecidableEq

/-- Ordering used by `ORDER BY created_at DESC`: newer rows first. -/
def rowOrder (a b : Row) : Prop := b.createdAt ≤ a.createdAt

instance : DecidableRel rowOrder := fun a b => Nat.decLe b.createdAt a.createdAt

instance : IsTotal Row rowOrder := ⟨fun a b => Nat.le_total b.createdAt a.createdAt⟩

instance : IsTrans Row rowOrder := ⟨fun _ _ _ h1 h2 => Nat.le_trans h2 h1⟩

/-- Result set of `SELECT id, name, email, created_at FROM users
ORDER BY created_at DESC`: the table's rows sorted by creation time,
newest first (a stable sort models the store's tie order). -/
def queryUsersDesc (l : List Row) : List Row := List.insertionSort rowOrder l

/-- Text of the `pq` duplicate-key error returned when the insert
violates the UNIQUE constraint on `email` (as documented in
`backend-api-examples.md`). -/
def pqDuplicateErr : String :=
  "pq: duplicate key value violates unique constraint \"users_email_key\""

/-- Text standing for any driver-level store error (connection
refused, timeout, ...). -/
def storeDownErr : String := "store unavailable"

/-- Text standing for the `json.Decoder.Decode` error on a malformed
body. -/
def decodeErrText : String := "invalid character in JSON body"

/-- Handler `GET /api/users` (`getUsers` in `main.go`,
`UserHandler.GetUsers` in the handlers package): try the cache under
the fixed key `users:all` and serve the cached bytes verbatim on a
hit; otherwise query the store (ordered newest first), respond with
the encoder's output (marshalled slice plus newline), and best-effort
`SET` the marshalled slice (no newline) with the fixed TTL, ignoring
the `SET` outcome. A store failure is surfaced as a 500. -/
def getUsers (e : Env) (s : Sys) : HResult :=
  match redisGet e.cacheUp s.cache e.now ("users:all") with
  | some cached => ⟨⟨200, cached⟩, s, 0, 1⟩
  | none =>
    if e.dbUp then
      let users := queryUsersDesc s.users
      let usersJSON := marshalUsers users
      ⟨⟨200, usersJSON ++ "\n"⟩,
        { s with cache := redisSet e.cacheUp s.cache e.now ("users:all") usersJSON },
        1, 2⟩
    else ⟨⟨500, storeDownErr ++ "\n"⟩, s, 1, 1⟩

/-- Handler `POST /api/users` (`createUser` in `main.go`,
`UserHandler.CreateUser` in the handlers package). The body argument
is the outcome of `json.Decoder.Decode`: `none` for a malformed body
(400), `some (name, email)` otherwise — no further validation is
performed on the decoded fields. The insert returns the generated id
and timestamp; any insert error (duplicate email included) is
answered with `http.Error(w, err.Error(), 500)`. Only after a
successful insert is `DEL users:all` issued (its error ignored), and
the created row is encoded with the default 200 status. -/
def createUser (e : Env) (s : Sys) (body : Option (String × String)) : HResult :=
  match body with
  | none => ⟨⟨400, decodeErrText ++ "\n"⟩, s, 0, 0⟩
  | some (name, email) =>
    if e.dbUp then
      if s.users.any (fun r => r.email == email) then
        ⟨⟨500, pqDuplicateErr ++ "\n"⟩, s, 1, 0⟩
      else
        let row : Row := ⟨s.nextId, name, email, e.now⟩
        ⟨⟨200, marshalUser row ++ "\n"⟩,
          ⟨s.users ++ [row], s.nextId + 1, redisDel e.cacheUp s.cache ("users:all")⟩,
          1, 1⟩
    else ⟨⟨500, storeDownErr ++ "\n"⟩, s, 1, 0⟩

/-- Digits-to-value accumulator of `strconv.Atoi`. -/
def digitsToNat (cs : List Char) : Nat :=
  cs.foldl (fun n c => 10 * n + (c.toNat - 48)) 0

/-- Parse a non-empty all-digit run, as `strconv.Atoi` requires after
the optional sign. -/
def parseDigits (cs : List Char) : Option Nat :=
  if cs ≠ [] ∧ cs.all (fun c => c.isDigit) then some (digitsToNat cs) else none

/-- Largest value of Go's 64-bit `int`. -/
def int64Max : Int := 9223372036854775807

/-- Model of `strconv.Atoi`: an optional single leading sign followed
by at least one digit, valuing within `int` range; anything else is
an error (`none`). -/
def atoi (str : String) : Option Int :=
  match str.toList with
  | '-' :: rest =>
    match parseDigits rest with
    | some n => if (n : Int) ≤ int64Max + 1 then some (-(n : Int)) else none
    | none => none
  | '+' :: rest =>
    match parseDigits rest with
    | some n => if (n : Int) ≤ int64Max then some ((n : Int)) else none
    | none => none
  | cs =>
    match parseDigits cs with
    | some n => if (n : Int) ≤ int64Max then some ((n : Int)) else none
    | none => none

/-- Handler `GET /api/users/{id}` (`getUser` in `main.go`,
`UserHandler.GetUser` in the handlers package): a path segment that
`strconv.Atoi` rejects is answered 400 before any cache or store
access; otherwise the per-identity key `user:<id>` is tried first and
served verbatim on a hit; on a miss the store is queried by primary
key — no row yields 404, a row is encoded (200) and best-effort
cached under the per-identity key with the fixed TTL. -/
def getUser (e : Env) (s : Sys) (idStr : String) : HResult :=
  match atoi idStr with
  | none => ⟨⟨400, "Invalid user ID" ++ "\n"⟩, s, 0, 0⟩
  | some id =>
    match redisGet e.cacheUp s.cache e.now ("user:" ++ toString id) with
    | some cached => ⟨⟨200, cached⟩, s, 0, 1⟩
    | none =>
      if e.dbUp then
        match s.users.find? (fun r => ((r.id : Int)) == id) with
        | none => ⟨⟨404, "User not found" ++ "\n"⟩, s, 1, 1⟩
        | some r =>
          ⟨⟨200, marshalUser r ++ "\n"⟩,
            { s with cache := redisSet e.cacheUp s.cache e.now ("user:" ++ toString id) (marshalUser r) },
            1, 2⟩
      else ⟨⟨500, storeDownErr ++ "\n"⟩, s, 1, 1⟩

/-- Number of values a 64-bit machine word can hold; Go's `int` is
64 bits wide on the deployment targets, and the accumulation in the
stress handler stays far below `2 ^ 63`, so wrapping at `2 ^ 64`
models `result += i` exactly. -/
def w64 : Nat := 18446744073709551616

/-- The fixed iteration count of the stress handler. -/
def stressIterations : Nat := 100000000

/-- The loop `for i := 0; i < n; i++ \x7b result += i \x7d` of the
stress handler: one accumulation step per iteration, on a 64-bit
accumulator. -/
def stressLoop : Nat → Nat
  | 0 => 0
  | n + 1 => (stressLoop n + n) % w64

/-- The `StressTestResponse` struct of `models/user.go`. -/
structure StressTestResponse where
  message : String
  result : Nat
  iterations : Nat
deriving DecidableEq

/-- Handler `GET /api/stress` (`StressHandler.ServeHTTP` /
`stressTest` in `main.go`), as a function of the incoming request
body, which it never reads: run the accumulation loop over the fixed
iteration count and encode the response struct. -/
def stressServe (_req : String) : StressTestResponse :=
  ⟨"Stress test completed", stressLoop stressIterations, stressIterations⟩

/-! Helper lemmas about the cache operations. -/

/-- After filtering out every entry for key `k`, a lookup for `k`
finds nothing. -/
theorem find?_filter_key (c : Cache) (k : String) :
    (c.filter (fun x => x.key != k)).find? (fun x => x.key == k) = none := by
  rw [List.find?_eq_none]
  intro x hx
  have hxk := List.of_mem_filter hx
  simp only [bne_iff_ne, ne_eq] at hxk
  simp [hxk]

/-- After a successful `DEL` of key `k`, no lookup for `k` succeeds,
whatever the cache availability at lookup time. -/
theorem redisGet_del_none (up : Bool) (c : Cache) (t : Nat) (k : String) :
    redisGet up (redisDel true c k) t k = none := by
  cases up with
  | false => rfl
  | true =>
    show (match (c.filter (fun x => x.key != k)).find? (fun x => x.key == k) with
      | some x => if t < x.expiry then some x.value else none
      | none => none) = none
    rw [find?_filter_key]

/-- A successful `SET` of key `k` is observed by any lookup of `k`
within the TTL while the cache is reachable. -/
theorem redisGet_set_get (c : Cache) (now t : Nat) (k v : String)
    (h : t < now + cacheTTL) :
    redisGet true (redisSet true c now k v) t k = some v := by
  simp [redisGet, redisSet, List.find?_cons, h]

/-! Helper lemmas about the stress loop. -/

/-- As long as the running total stays below the word size, the
wrapped accumulation computes the exact sum of `0 .. n-1`. -/
theorem stressLoop_eq_sum (n : Nat) (h : (∑ i ∈ Finset.range n, i) < w64) :
    stressLoop n = ∑ i ∈ Finset.range n, i := by
  induction n with
  | zero => simp [stressLoop]
  | succ k ih =>
    rw [Finset.sum_range_succ] at h ⊢
    have hk : (∑ i ∈ Finset.range k, i) < w64 :=
      Nat.lt_of_le_of_lt (Nat.le_add_right _ _) h
    rw [stressLoop, ih hk, Nat.mod_eq_of_lt h]

/-- Gauss: the sum of `0 .. 99999999` evaluates to the documented
stress-test result. -/
theorem sum_range_stressIterations :
    (∑ i ∈ Finset.range 100000000, i) = 4999999950000000 := by
  have h := Finset.sum_range_id_mul_two 100000000
  omega

/-- The stress loop over the fixed iteration count never wraps and
returns the documented constant. -/
theorem stressLoop_value : stressLoop 100000000 = 4999999950000000 := by
  rw [stressLoop_eq_sum]
  · exact sum_range_stressIterations
  · rw [sum_range_stressIterations]
    norm_num [w64]

/-- A Create call on a decoded body always issues exactly one store
query (the insert), whatever the decoded field values. -/
theorem createUser_some_storeCalls (e : Env) (s : Sys) (nm em : String) :
    (createUser e s (some (nm, em))).storeCalls = 1 := by
  cases hdb : e.dbUp with
  | false => simp [createUser, hdb]
  | true =>
    cases hdup : s.users.any (fun r => r.email == em) with
    | false => simp [createUser, hdb, hdup]
    | true => simp [createUser, hdb, hdup]

/-- A Create call on a decoded body answers either 200 (insert
accepted) or 500 (insert failed), never 400. -/
theorem createUser_some_status (e : Env) (s : Sys) (nm em : String) :
    (createUser e s (some (nm, em))).resp.status = 200 ∨
    (createUser e s (some (nm, em))).resp.status = 500 := by
  cases hdb : e.dbUp with
  | false => exact Or.inr (by simp [createUser, hdb])
  | true =>
    cases hdup : s.users.any (fun r => r.email == em) with
    | false => exact Or.inl (by simp [createUser, hdb, hdup])
    | true => exact Or.inr (by simp [createUser, hdb, hdup])

/-! Claim theorems. -/

/-- C3: every Run-load call performs the fixed 100000000 accumulation
steps (one per loop iteration) and returns result 4999999950000000
with iterations 100000000, identically on every call: the response is
a pure function of the fixed iteration count and independent of the
incoming request. -/
theorem run_load_deterministic_result (q q' : String) :
    (stressServe q).result = 4999999950000000 ∧
    (stressServe q).iterations = 100000000 ∧
    stressServe q = stressServe q' := by
  refine ⟨?_, rfl, rfl⟩
  show stressLoop stressIterations = 4999999950000000
  exact stressLoop_value

/-- Witness for C3 at two concrete requests. -/
theorem run_load_deterministic_result_witness :
    (stressServe ("")).result = 4999999950000000 ∧
    (stressServe ("")).iterations = 100000000 ∧
    stressServe ("") = stressServe ("x") :=
  run_load_deterministic_result ("") ("x")

/-- C2: a failed cache lookup — key absent, entry expired, or the
cache layer unreachable — falls through to a store query whose result
is returned, and no cache failure (lookup or write-back) is surfaced:
Read-collection responds 200 whenever the store is reachable,
regardless of cache availability. -/
theorem getUsers_succeeds_with_store (e : Env) (s : Sys) (hdb : e.dbUp = true) :
    (getUsers e s).resp.status = 200 ∧
    (redisGet e.cacheUp s.cache e.now ("users:all") = none →
      (getUsers e s).resp.body = marshalUsers (queryUsersDesc s.users) ++ "\n" ∧
      (getUsers e s).storeCalls = 1) := by
  cases hg : redisGet e.cacheUp s.cache e.now ("users:all") with
  | some v =>
    exact ⟨by simp [getUsers, hg], fun hn => by simp [hg] at hn⟩
  | none =>
    exact ⟨by simp [getUsers, hg, hdb], fun _ => by simp [getUsers, hg, hdb]⟩

/-- Witness for C2: an unreachable cache and an empty store. -/
theorem getUsers_succeeds_with_store_witness :
    (getUsers ⟨false, true, 0⟩ ⟨[], 1, []⟩).resp.status = 200 ∧
    (redisGet false [] 0 ("users:all") = none →
      (getUsers ⟨false, true, 0⟩ ⟨[], 1, []⟩).resp.body =
        marshalUsers (queryUsersDesc []) ++ "\n" ∧
      (getUsers ⟨false, true, 0⟩ ⟨[], 1, []⟩).storeCalls = 1) :=
  getUsers_succeeds_with_store ⟨false, true, 0⟩ ⟨[], 1, []⟩ rfl

/-- C5: when the store insert fails — store unreachable or duplicate
address alike — Create returns an error (500) without attempting the
collection-key invalidation: no cache command is issued and the whole
system state, every cache entry included, is unchanged. -/
theorem create_failed_insert_no_cache_mutation (e : Env) (s : Sys) (nm em : String)
    (h : e.dbUp = false ∨ (s.users.any fun r => r.email == em) = true) :
    (createUser e s (some (nm, em))).sys = s ∧
    (createUser e s (some (nm, em))).resp.status = 500 ∧
    (createUser e s (some (nm, em))).cacheCalls = 0 := by
  rcases h with h | h
  · simp [createUser, h]
  · cases hdb : e.dbUp with
    | false => simp [createUser, hdb]
    | true => simp [createUser, hdb, h]

/-- Witness for C5: the store is unreachable during the insert. -/
theorem create_failed_insert_no_cache_mutation_witness :
    (createUser ⟨true, false, 0⟩ ⟨[], 1, [⟨"users:all", "null", 50⟩]⟩
        (some ("Ada", "ada@example.com"))).sys = ⟨[], 1, [⟨"users:all", "null", 50⟩]⟩ ∧
    (createUser ⟨true, false, 0⟩ ⟨[], 1, [⟨"users:all", "null", 50⟩]⟩
        (some ("Ada", "ada@example.com"))).resp.status = 500 ∧
    (createUser ⟨true, false, 0⟩ ⟨[], 1, [⟨"users:all", "null", 50⟩]⟩
        (some ("Ada", "ada@example.com"))).cacheCalls = 0 :=
  create_failed_insert_no_cache_mutation ⟨true, false, 0⟩ ⟨[], 1, [⟨"users:all", "null", 50⟩]⟩
    ("Ada") ("ada@example.com") (Or.inl rfl)

/-- C10: Create performs no content validation on the decoded body:
the store insert is attempted for every body that decodes — the empty
display name or empty address included (absent JSON fields decode to
the empty string) — and the only condition answered 400 is a JSON
decode failure. -/
theorem create_no_content_validation (e : Env) (s : Sys) (nm em : String) :
    (createUser e s (some (nm, em))).storeCalls = 1 ∧
    (createUser e s (some (nm, em))).resp.status ≠ 400 ∧
    (∀ (e' : Env) (s' : Sys) (b : Option (String × String)),
      (createUser e' s' b).resp.status = 400 → b = none) := by
  refine ⟨createUser_some_storeCalls e s nm em, ?_, ?_⟩
  · rcases createUser_some_status e s nm em with h | h <;> rw [h] <;> omega
  · intro e' s' b hb
    match b with
    | none => rfl
    | some (n, m) =>
      rcases createUser_some_status e' s' n m with h | h <;> rw [hb] at h <;> cases h

/-- Witness for C10 at a body whose fields are both empty strings. -/
theorem create_no_content_validation_witness :
    (createUser ⟨true, true, 0⟩ ⟨[], 1, []⟩ (some ("", ""))).storeCalls = 1 ∧
    (createUser ⟨true, true, 0⟩ ⟨[], 1, []⟩ (some ("", ""))).resp.status ≠ 400 ∧
    (∀ (e' : Env) (s' : Sys) (b : Option (String × String)),
      (createUser e' s' b).resp.status = 400 → b = none) :=
  create_no_content_validation ⟨true, true, 0⟩ ⟨[], 1, []⟩ ("") ("")

/-- C9: a Read-by-identity call whose well-formed id has no cache
entry and no store row fails 404 (Not Found), and a path segment the
integer parse rejects fails 400 before any cache or store access —
no store query, no cache command, state untouched. -/
theorem getUser_notfound_badinput (e : Env) (s : Sys) (idStr : String) (id : Int)
    (hid : atoi idStr = some id)
    (hmiss : redisGet e.cacheUp s.cache e.now ("user:" ++ toString id) = none)
    (hdb : e.dbUp = true)
    (hno : s.users.find? (fun r => ((r.id : Int)) == id) = none) :
    (getUser e s idStr).resp.status = 404 ∧
    (getUser e s idStr).resp.body = "User not found" ++ "\n" ∧
    (∀ (e' : Env) (s' : Sys) (bad : String), atoi bad = none →
      (getUser e' s' bad).resp.status = 400 ∧ (getUser e' s' bad).storeCalls = 0 ∧
      (getUser e' s' bad).cacheCalls = 0 ∧ (getUser e' s' bad).sys = s') := by
  refine ⟨by simp [getUser, hid, hmiss, hdb, hno], by simp [getUser, hid, hmiss, hdb, hno], ?_⟩
  intro e' s' bad hbad
  simp [getUser, hbad]

/-- Witness for C9: identity 7 on an empty store, and the
non-numeric path segment `abc`. -/
theorem getUser_notfound_badinput_witness :
    (getUser ⟨true, true, 0⟩ ⟨[], 1, []⟩ ("7")).resp.status = 404 ∧
    (getUser ⟨true, true, 0⟩ ⟨[], 1, []⟩ ("7")).resp.body = "User not found" ++ "\n" ∧
    (∀ (e' : Env) (s' : Sys) (bad : String), atoi bad = none →
      (getUser e' s' bad).resp.status = 400 ∧ (getUser e' s' bad).storeCalls = 0 ∧
      (getUser e' s' bad).cacheCalls = 0 ∧ (getUser e' s' bad).sys = s') :=
  getUser_notfound_badinput ⟨true, true, 0⟩ ⟨[], 1, []⟩ ("7") 7 (by decide) rfl rfl rfl

/-- C1 counterexample: with the store holding Ada's address, a Create
duplicating that address is answered 500, not the claimed 409 — the
same 500 status the handler uses when the store is unreachable, so
the duplicate case is not distinguishable by error kind. -/
theorem create_conflict_status_cex :
    (createUser ⟨true, true, 1⟩ ⟨[⟨1, "Ada", "ada@example.com", 0⟩], 2, []⟩
        (some ("Bob", "ada@example.com"))).resp.status = 500 ∧
    ¬ (createUser ⟨true, true, 1⟩ ⟨[⟨1, "Ada", "ada@example.com", 0⟩], 2, []⟩
        (some ("Bob", "ada@example.com"))).resp.status = 409 ∧
    (createUser ⟨true, false, 1⟩ ⟨[⟨1, "Ada", "ada@example.com", 0⟩], 2, []⟩
        (some ("Carol", "carol@example.com"))).resp.status = 500 := by
  decide

/-- C1 amended: a duplicate-address insert makes Create fail with
HTTP 500 carrying the store's duplicate-key error text — the same 500
status as any other store failure (only the raw error text differs);
no Conflict/409 error kind exists. -/
theorem create_duplicate_yields_500 (e e' : Env) (s : Sys) (nm em nm' em' : String)
    (hdb : e.dbUp = true) (hdup : (s.users.any fun r => r.email == em) = true)
    (hdb' : e'.dbUp = false) :
    (createUser e s (some (nm, em))).resp.status = 500 ∧
    (createUser e s (some (nm, em))).resp.body = pqDuplicateErr ++ "\n" ∧
    (createUser e' s (some (nm', em'))).resp.status = 500 ∧
    (createUser e' s (some (nm', em'))).resp.body = storeDownErr ++ "\n" := by
  refine ⟨?_, ?_, ?_, ?_⟩ <;> simp [createUser, hdb, hdup, hdb']

/-- Witness for the amended C1 at Ada's duplicated address. -/
theorem create_duplicate_yields_500_witness :
    (createUser ⟨true, true, 1⟩ ⟨[⟨1, "Ada", "ada@example.com", 0⟩], 2, []⟩
        (some ("Bob", "ada@example.com"))).resp.status = 500 ∧
    (createUser ⟨true, true, 1⟩ ⟨[⟨1, "Ada", "ada@example.com", 0⟩], 2, []⟩
        (some ("Bob", "ada@example.com"))).resp.body = pqDuplicateErr ++ "\n" ∧
    (createUser ⟨true, false, 1⟩ ⟨[⟨1, "Ada", "ada@example.com", 0⟩], 2, []⟩
        (some ("Carol", "carol@example.com"))).resp.status = 500 ∧
    (createUser ⟨true, false, 1⟩ ⟨[⟨1, "Ada", "ada@example.com", 0⟩], 2, []⟩
        (some ("Carol", "carol@example.com"))).resp.body = storeDownErr ++ "\n" :=
  create_duplicate_yields_500 ⟨true, true, 1⟩ ⟨true, false, 1⟩
    ⟨[⟨1, "Ada", "ada@example.com", 0⟩], 2, []⟩
    ("Bob") ("ada@example.com") ("Carol") ("carol@example.com") rfl (by decide) rfl

/-- C4 counterexample: the store accepts the insert while the cache
layer is unreachable for the ignored `DEL`; Create still returns 200,
the stale collection entry survives, and the next Read-collection is
served from the cache with zero store queries — so the invalidation
is not guaranteed before Create returns. -/
theorem create_invalidation_cex :
    (createUser ⟨false, true, 0⟩ ⟨[], 1, [⟨"users:all", "null", 1000⟩]⟩
        (some ("Ada", "ada@example.com"))).resp.status = 200 ∧
    (getUsers ⟨true, true, 1⟩
        (createUser ⟨false, true, 0⟩ ⟨[], 1, [⟨"users:all", "null", 1000⟩]⟩
          (some ("Ada", "ada@example.com"))).sys).storeCalls = 0 ∧
    (getUsers ⟨true, true, 1⟩
        (createUser ⟨false, true, 0⟩ ⟨[], 1, [⟨"users:all", "null", 1000⟩]⟩
          (some ("Ada", "ada@example.com"))).sys).resp.body = "null" := by
  decide

/-- C4 amended: on a store-accepted Create, `DEL users:all` is issued
before returning and its error ignored; whenever the cache layer is
reachable for that `DEL`, the collection key is absent afterwards and
every next Read-collection issues a real store query. -/
theorem create_invalidates_when_cache_reachable (e : Env) (s : Sys) (nm em : String)
    (hdb : e.dbUp = true) (hc : e.cacheUp = true)
    (hdup : (s.users.any fun r => r.email == em) = false) :
    (createUser e s (some (nm, em))).resp.status = 200 ∧
    (∀ (up : Bool) (t : Nat),
      redisGet up (createUser e s (some (nm, em))).sys.cache t ("users:all") = none) ∧
    (∀ e' : Env, (getUsers e' (createUser e s (some (nm, em))).sys).storeCalls = 1) := by
  have hcache : (createUser e s (some (nm, em))).sys.cache =
      redisDel true s.cache ("users:all") := by
    simp [createUser, hdb, hdup, hc]
  refine ⟨by simp [createUser, hdb, hdup], ?_, ?_⟩
  · intro up t
    rw [hcache]
    exact redisGet_del_none up s.cache t _
  · intro e'
    have hmiss : redisGet e'.cacheUp (createUser e s (some (nm, em))).sys.cache
        e'.now ("users:all") = none := by
      rw [hcache]
      exact redisGet_del_none _ s.cache _ _
    cases hdb' : e'.dbUp with
    | false => simp [getUsers, hmiss, hdb']
    | true => simp [getUsers, hmiss, hdb']

/-- Witness for the amended C4: a reachable cache holding a stale
collection entry that the Create removes. -/
theorem create_invalidates_when_cache_reachable_witness :
    (createUser ⟨true, true, 0⟩ ⟨[], 1, [⟨"users:all", "null", 1000⟩]⟩
        (some ("Ada", "ada@example.com"))).resp.status = 200 ∧
    (∀ (up : Bool) (t : Nat),
      redisGet up (createUser ⟨true, true, 0⟩ ⟨[], 1, [⟨"users:all", "null", 1000⟩]⟩
        (some ("Ada", "ada@example.com"))).sys.cache t ("users:all") = none) ∧
    (∀ e' : Env, (getUsers e' (createUser ⟨true, true, 0⟩ ⟨[], 1, [⟨"users:all", "null", 1000⟩]⟩
        (some ("Ada", "ada@example.com"))).sys).storeCalls = 1) :=
  create_invalidates_when_cache_reachable ⟨true, true, 0⟩
    ⟨[], 1, [⟨"users:all", "null", 1000⟩]⟩ ("Ada") ("ada@example.com") rfl rfl (by decide)

/-- C6 counterexample: a well-formed body the store accepts — the row
is inserted — is answered with the default status 200, not the
claimed 201. -/
theorem create_created_status_cex :
    (createUser ⟨true, true, 5⟩ ⟨[], 1, []⟩
        (some ("Ada", "ada@example.com"))).resp.status = 200 ∧
    ¬ (createUser ⟨true, true, 5⟩ ⟨[], 1, []⟩
        (some ("Ada", "ada@example.com"))).resp.status = 201 ∧
    (createUser ⟨true, true, 5⟩ ⟨[], 1, []⟩
        (some ("Ada", "ada@example.com"))).sys.users =
      [⟨1, "Ada", "ada@example.com", 5⟩] := by
  decide

/-- C6 amended: a well-formed body the store accepts is answered with
status 200 (the handler never calls `WriteHeader`, so Go's default
applies, not 201) carrying the created entity with the store-assigned
identity and creation timestamp; a malformed body is answered 400. -/
theorem create_success_200_with_entity (e : Env) (s : Sys) (nm em : String)
    (hdb : e.dbUp = true) (hdup : (s.users.any fun r => r.email == em) = false) :
    (createUser e s (some (nm, em))).resp.status = 200 ∧
    (createUser e s (some (nm, em))).resp.body =
      marshalUser ⟨s.nextId, nm, em, e.now⟩ ++ "\n" ∧
    (createUser e s (some (nm, em))).sys.users = s.users ++ [⟨s.nextId, nm, em, e.now⟩] ∧
    (∀ (e' : Env) (s' : Sys), (createUser e' s' none).resp.status = 400) := by
  refine ⟨?_, ?_, ?_, fun e' s' => rfl⟩ <;> simp [createUser, hdb, hdup]

/-- Witness for the amended C6 at Ada's create on an empty store. -/
theorem create_success_200_with_entity_witness :
    (createUser ⟨true, true, 5⟩ ⟨[], 1, []⟩
        (some ("Ada", "ada@example.com"))).resp.status = 200 ∧
    (createUser ⟨true, true, 5⟩ ⟨[], 1, []⟩
        (some ("Ada", "ada@example.com"))).resp.body =
      marshalUser ⟨1, "Ada", "ada@example.com", 5⟩ ++ "\n" ∧
    (createUser ⟨true, true, 5⟩ ⟨[], 1, []⟩
        (some ("Ada", "ada@example.com"))).sys.users =
      [] ++ [⟨1, "Ada", "ada@example.com", 5⟩] ∧
    (∀ (e' : Env) (s' : Sys), (createUser e' s' none).resp.status = 400) :=
  create_success_200_with_entity ⟨true, true, 5⟩ ⟨[], 1, []⟩ ("Ada") ("ada@example.com") rfl rfl

/-- C7 counterexample: on an empty store, the first Read-collection
(a miss) responds with the encoder output `null` plus a trailing
newline, while the repeat within TTL is served from the cache as the
marshalled bytes `null` without that newline and with zero store
queries — the two payloads are not byte-identical. -/
theorem read_repeat_byte_identical_cex :
    (getUsers ⟨true, true, 0⟩ ⟨[], 1, []⟩).resp.body = "null" ++ "\n" ∧
    (getUsers ⟨true, true, 1⟩ (getUsers ⟨true, true, 0⟩ ⟨[], 1, []⟩).sys).resp.body = "null" ∧
    (getUsers ⟨true, true, 1⟩ (getUsers ⟨true, true, 0⟩ ⟨[], 1, []⟩).sys).storeCalls = 0 ∧
    ¬ ("null" ++ "\n" : String) = "null" := by
  decide

/-- C7 amended: within the TTL and with no intervening Create, a
repeated Read-collection or Read-by-identity is served from the cache
with no further store query, and its payload is the marshalled bytes
written back on the preceding miss — byte-identical across repeated
hits, but lacking the single trailing newline the miss response's
streaming encoder appended. -/
theorem read_hit_serves_cached_payload (e e' : Env) (s : Sys) (idStr : String)
    (id : Int) (r : Row)
    (hdb : e.dbUp = true) (hc : e.cacheUp = true) (hc' : e'.cacheUp = true)
    (ht : e'.now < e.now + cacheTTL)
    (hmissC : redisGet e.cacheUp s.cache e.now ("users:all") = none)
    (hid : atoi idStr = some id)
    (hmissI : redisGet e.cacheUp s.cache e.now ("user:" ++ toString id) = none)
    (hrow : s.users.find? (fun x => ((x.id : Int)) == id) = some r) :
    ((getUsers e s).resp.body = marshalUsers (queryUsersDesc s.users) ++ "\n" ∧
      (getUsers e' (getUsers e s).sys).resp.body = marshalUsers (queryUsersDesc s.users) ∧
      (getUsers e' (getUsers e s).sys).storeCalls = 0) ∧
    ((getUser e s idStr).resp.body = marshalUser r ++ "\n" ∧
      (getUser e' (getUser e s idStr).sys idStr).resp.body = marshalUser r ∧
      (getUser e' (getUser e s idStr).sys idStr).storeCalls = 0) := by
  have hsys : (getUsers e s).sys =
      { s with cache := (redisSet true s.cache e.now ("users:all")
          (marshalUsers (queryUsersDesc s.users))) } := by
    rw [hc] at hmissC
    simp [getUsers, hmissC, hdb, hc]
  have hhit : redisGet e'.cacheUp
      (redisSet true s.cache e.now ("users:all") (marshalUsers (queryUsersDesc s.users)))
      e'.now ("users:all") = some (marshalUsers (queryUsersDesc s.users)) := by
    rw [hc']
    exact redisGet_set_get _ _ _ _ _ ht
  have hsysU : (getUser e s idStr).sys =
      { s with cache := (redisSet true s.cache e.now ("user:" ++ toString id)
          (marshalUser r)) } := by
    rw [hc] at hmissI
    simp [getUser, hid, hmissI, hdb, hrow, hc]
  have hhitU : redisGet e'.cacheUp
      (redisSet true s.cache e.now ("user:" ++ toString id) (marshalUser r))
      e'.now ("user:" ++ toString id) = some (marshalUser r) := by
    rw [hc']
    exact redisGet_set_get _ _ _ _ _ ht
  refine ⟨⟨?_, ?_, ?_⟩, ?_, ?_, ?_⟩
  · rw [hc] at hmissC
    simp [getUsers, hmissC, hdb, hc]
  · rw [hsys]
    simp [getUsers, hhit]
  · rw [hsys]
    simp [getUsers, hhit]
  · rw [hc] at hmissI
    simp [getUser, hid, hmissI, hdb, hrow, hc]
  · rw [hsysU]
    simp [getUser, hid, hhitU]
  · rw [hsysU]
    simp [getUser, hid, hhitU]

/-- Witness for the amended C7: Ada's row, read as the collection and
by identity 1, then repeated one tick later. -/
theorem read_hit_serves_cached_payload_witness :
    ((getUsers ⟨true, true, 0⟩ ⟨[⟨1, "Ada", "ada@example.com", 0⟩], 2, []⟩).resp.body =
        marshalUsers (queryUsersDesc [⟨1, "Ada", "ada@example.com", 0⟩]) ++ "\n" ∧
      (getUsers ⟨true, true, 1⟩
          (getUsers ⟨true, true, 0⟩ ⟨[⟨1, "Ada", "ada@example.com", 0⟩], 2, []⟩).sys).resp.body =
        marshalUsers (queryUsersDesc [⟨1, "Ada", "ada@example.com", 0⟩]) ∧
      (getUsers ⟨true, true, 1⟩
          (getUsers ⟨true, true, 0⟩ ⟨[⟨1, "Ada", "ada@example.com", 0⟩], 2, []⟩).sys).storeCalls = 0) ∧
    ((getUser ⟨true, true, 0⟩ ⟨[⟨1, "Ada", "ada@example.com", 0⟩], 2, []⟩ ("1")).resp.body =
        marshalUser ⟨1, "Ada", "ada@example.com", 0⟩ ++ "\n" ∧
      (getUser ⟨true, true, 1⟩
          (getUser ⟨true, true, 0⟩ ⟨[⟨1, "Ada", "ada@example.com", 0⟩], 2, []⟩ ("1")).sys
          ("1")).resp.body = marshalUser ⟨1, "Ada", "ada@example.com", 0⟩ ∧
      (getUser ⟨true, true, 1⟩
          (getUser ⟨true, true, 0⟩ ⟨[⟨1, "Ada", "ada@example.com", 0⟩], 2, []⟩ ("1")).sys
          ("1")).storeCalls = 0) :=
  read_hit_serves_cached_payload ⟨true, true, 0⟩ ⟨true, true, 1⟩
    ⟨[⟨1, "Ada", "ada@example.com", 0⟩], 2, []⟩ ("1") 1
    ⟨1, "Ada", "ada@example.com", 0⟩ rfl rfl rfl (by decide) rfl (by decide) rfl (by decide)

/-- C8 counterexample: with no rows in the store, the Read-collection
miss path responds with the body `null` (plus the encoder's newline)
— Go marshals the nil slice as `null` — not with an empty JSON
array. -/
theorem empty_collection_null_cex :
    (getUsers ⟨true, true, 0⟩ ⟨[], 1, []⟩).resp.body = "null" ++ "\n" ∧
    ¬ ("null" ++ "\n" : String) = "[]" ++ "\n" ∧
    ¬ ("null" ++ "\n" : String) = "[]" := by
  decide

/-- C8 amended: a Read-collection that reaches the store responds 200
with the marshalled rows ordered by creation time, newest first (the
same multiset of rows the store holds); when the store holds no rows
the body is the literal `null` of Go's nil-slice marshalling plus the
encoder newline, not an empty JSON array. -/
theorem getUsers_store_ordering (e : Env) (s : Sys)
    (hdb : e.dbUp = true)
    (hmiss : redisGet e.cacheUp s.cache e.now ("users:all") = none) :
    (getUsers e s).resp.status = 200 ∧
    (getUsers e s).resp.body = marshalUsers (queryUsersDesc s.users) ++ "\n" ∧
    List.Sorted rowOrder (queryUsersDesc s.users) ∧
    List.Perm (queryUsersDesc s.users) s.users ∧
    (s.users = [] → (getUsers e s).resp.body = "null" ++ "\n") := by
  refine ⟨by simp [getUsers, hmiss, hdb], by simp [getUsers, hmiss, hdb],
    List.sorted_insertionSort rowOrder s.users, List.perm_insertionSort rowOrder s.users, ?_⟩
  intro hnil
  simp [getUsers, hmiss, hdb, hnil, queryUsersDesc, List.insertionSort, marshalUsers]

/-- Witness for the amended C8: two rows inserted oldest-first are
served newest-first. -/
theorem getUsers_store_ordering_witness :
    (getUsers ⟨true, true, 10⟩
        ⟨[⟨1, "Ada", "ada@example.com", 0⟩, ⟨2, "Bob", "bob@example.com", 5⟩], 3, []⟩).resp.status = 200 ∧
    (getUsers ⟨true, true, 10⟩
        ⟨[⟨1, "Ada", "ada@example.com", 0⟩, ⟨2, "Bob", "bob@example.com", 5⟩], 3, []⟩).resp.body =
      marshalUsers (queryUsersDesc
        [⟨1, "Ada", "ada@example.com", 0⟩, ⟨2, "Bob", "bob@example.com", 5⟩]) ++ "\n" ∧
    List.Sorted rowOrder (queryUsersDesc
      [⟨1, "Ada", "ada@example.com", 0⟩, ⟨2, "Bob", "bob@example.com", 5⟩]) ∧
    List.Perm (queryUsersDesc
      [⟨1, "Ada", "ada@example.com", 0⟩, ⟨2, "Bob", "bob@example.com", 5⟩])
      [⟨1, "Ada", "ada@example.com", 0⟩, ⟨2, "Bob", "bob@example.com", 5⟩] ∧
    ([⟨1, "Ada", "ada@example.com", 0⟩, ⟨2, "Bob", "bob@example.com", 5⟩] = ([] : List Row) →
      (getUsers ⟨true, true, 10⟩
        ⟨[⟨1, "Ada", "ada@example.com", 0⟩, ⟨2, "Bob", "bob@example.com", 5⟩], 3, []⟩).resp.body =
        "null" ++ "\n") :=
  getUsers_store_ordering ⟨true, true, 10⟩
    ⟨[⟨1, "Ada", "ada@example.com", 0⟩, ⟨2, "Bob", "bob@example.com", 5⟩], 3, []⟩ rfl rfl

end Webapp
